import Mathlib

/-!
Verification development for the rag_doc_manager repository.

The Python source is shallowly embedded: collections stored in CosmosDB are
association lists keyed by the collection's primary key, external service
outcomes are explicit parameters, Python `assert`/`raise` paths are `Except`
values, and Python `Optional[str]` values are `Option String`.
-/

set_option maxRecDepth 4000

namespace RagDocManager

/-! ## Store model

`CosmosDBClient` (storage/database_manager/cosmosdb_manager.py) exposes
`get_record` (find_one by primary key), `update_or_create_record` /
`insert_record` (replace-or-insert upsert), and `delete_record` (delete_one).
We model a collection as a list of (primary key, record) pairs: lookup finds
the first matching key, upsert replaces the first matching entry or appends,
delete removes the first matching entry. -/

def storeGet {α : Type} (store : List (String × α)) (k : String) : Option α :=
  match store with
  | [] => none
  | p :: ps => if p.1 = k then some p.2 else storeGet ps k

def storeUpsert {α : Type} (store : List (String × α)) (k : String) (v : α) :
    List (String × α) :=
  match store with
  | [] => [(k, v)]
  | p :: ps => if p.1 = k then (k, v) :: ps else p :: storeUpsert ps k v

def storeDelete {α : Type} (store : List (String × α)) (k : String) :
    List (String × α) :=
  match store with
  | [] => []
  | p :: ps => if p.1 = k then ps else p :: storeDelete ps k

/-- Well-formedness of a store: primary keys are pairwise distinct.  Every
store reachable through the code's own upsert/delete operations satisfies
this. -/
def storeKeysNodup {α : Type} (store : List (String × α)) : Prop :=
  (store.map Prod.fst).Nodup

theorem storeGet_upsert_self {α : Type} (store : List (String × α)) (k : String) (v : α) :
    storeGet (storeUpsert store k v) k = some v := by
  induction store with
  | nil => simp [storeGet, storeUpsert]
  | cons p ps ih =>
    by_cases h : p.1 = k
    · simp [storeGet, storeUpsert, h]
    · simp [storeGet, storeUpsert, h, ih]

theorem storeGet_eq_none_of_not_mem {α : Type} (store : List (String × α)) (k : String)
    (h : k ∉ store.map Prod.fst) : storeGet store k = none := by
  induction store with
  | nil => rfl
  | cons p ps ih =>
    simp only [List.map_cons, List.mem_cons] at h
    push_neg at h
    have h1 : ¬ p.1 = k := fun hh => h.1 hh.symm
    simp [storeGet, h1, ih h.2]

theorem storeGet_delete_self {α : Type} (store : List (String × α)) (k : String)
    (h : storeKeysNodup store) : storeGet (storeDelete store k) k = none := by
  induction store with
  | nil => rfl
  | cons p ps ih =>
    simp only [storeKeysNodup, List.map_cons, List.nodup_cons] at h
    by_cases hk : p.1 = k
    · subst hk
      exact storeGet_eq_none_of_not_mem ps p.1 h.1 ▸ by simp [storeDelete]
    · simp [storeDelete, hk, storeGet, ih h.2]

/-! ## Python-semantics helpers -/

/-- Truthiness of a Python `Optional[str]`: `None` and the empty string are
falsy, any other string is truthy (used by `assert account_id` etc.). -/
def pyTruthy : Option String → Bool
  | none => false
  | some s => s != ""

/-- Rendering of a Python `Optional[str]` inside an f-string: `None` renders
as the four-character string "None". -/
def pyFStrOpt : Option String → String
  | none => "None"
  | some s => s

/-- Python `list.remove`: removes the first occurrence, raises `ValueError`
when the element is absent. -/
def pyListRemove {α : Type} [DecidableEq α] : List α → α → Except String (List α)
  | [], _ => .error "ValueError: list.remove(x): x not in list"
  | x :: xs, a =>
    if x = a then .ok xs
    else
      match pyListRemove xs a with
      | .ok ys => .ok (x :: ys)
      | .error e => .error e

theorem pyListRemove_of_mem {α : Type} [DecidableEq α] (xs : List α) (a : α)
    (h : a ∈ xs) : pyListRemove xs a = .ok (xs.erase a) := by
  induction xs with
  | nil => cases h
  | cons x xs ih =>
    by_cases hx : x = a
    · subst hx
      simp [pyListRemove, List.erase_cons_head]
    · have hmem : a ∈ xs := by
        cases List.mem_cons.mp h with
        | inl h' => exact absurd h'.symm hx
        | inr h' => exact h'
      have hbeq : (x == a) = false := beq_false_of_ne hx
      simp [pyListRemove, hx, ih hmem, List.erase_cons, hbeq]

theorem pyListRemove_of_not_mem {α : Type} [DecidableEq α] (xs : List α) (a : α)
    (h : a ∉ xs) : pyListRemove xs a = .error "ValueError: list.remove(x): x not in list" := by
  induction xs with
  | nil => rfl
  | cons x xs ih =>
    simp only [List.mem_cons] at h
    push_neg at h
    have h1 : ¬ x = a := fun hh => h.1 hh.symm
    simp [pyListRemove, h1, ih h.2]

/-- Whether an `Except` computation succeeded. -/
def isOkE {α : Type} : Except String α → Bool
  | .ok _ => true
  | .error _ => false

/-- The payload of a successful `Except` computation. -/
def exOk? {α : Type} : Except String α → Option α
  | .ok a => some a
  | .error _ => none

/-! ## ScopeResolver: the search-side filter expression

Embeds `AISearchQueryEngine._build_filter_expression`
(search/adaptors/azure_ai_query_engine.py, lines 47-104).  Custom filter
values cover the `isinstance` branches of the source (str, bool, int/float
rendered by `str()`, list of str, list of non-str). -/

inductive FilterValue : Type
  | str (s : String)
  | bool (b : Bool)
  | int (n : Int)
  | listStr (vs : List String)
  | listInt (vs : List Int)

/-- One custom-filter condition, following the `isinstance` chain of the
source; an empty list value produces no condition. -/
def renderCustomFilter (fieldName : String) (v : FilterValue) : Option String :=
  match v with
  | .str s => some (fieldName ++ " eq '" ++ s ++ "'")
  | .bool b => some (fieldName ++ " eq " ++ (if b then "true" else "false"))
  | .int n => some (fieldName ++ " eq " ++ toString n)
  | .listStr [] => none
  | .listStr (v0 :: vs) =>
    some (fieldName ++ " in (" ++
      String.intercalate ", " ((v0 :: vs).map (fun x => "'" ++ x ++ "'")) ++ ")")
  | .listInt [] => none
  | .listInt (v0 :: vs) =>
    some (fieldName ++ " in (" ++
      String.intercalate ", " ((v0 :: vs).map (fun n => toString n)) ++ ")")

/-- Embeds `_build_filter_expression`.  Note the control flow of the source:
the branch adding the `is_global` condition is the `else` of the
account/user/session chain, so it runs only when the scope is none of those
three; inside it `filter_conditions` is still empty, which makes the
"OR existing conditions with the global condition" arm unreachable. -/
def buildFilterExpression (account_id user_id session_id : Option String)
    (scope : String) (custom_filters : List (String × FilterValue)) :
    Except String (Option String) :=
  let scopeStep : Except String (List String) :=
    if scope = "account" then
      if pyTruthy account_id then .ok ["account_id eq '" ++ pyFStrOpt account_id ++ "'"]
      else .error "AssertionError"
    else if scope = "user" then
      if pyTruthy user_id then .ok ["user_id eq '" ++ pyFStrOpt user_id ++ "'"]
      else .error "AssertionError"
    else if scope = "session" then
      if pyTruthy session_id then .ok ["session_id eq '" ++ pyFStrOpt session_id ++ "'"]
      else .error "AssertionError"
    else
      let filter_conditions : List String := []
      if !filter_conditions.isEmpty then
        .ok ["(" ++ String.intercalate " and " filter_conditions ++ ") or is_global eq true"]
      else
        .ok (filter_conditions ++ ["is_global eq true"])
  match scopeStep with
  | .error e => .error e
  | .ok conds =>
    let allConds := conds ++ custom_filters.filterMap (fun p => renderCustomFilter p.1 p.2)
    if allConds.isEmpty then .ok none
    else .ok (some (String.intercalate " and " allConds))

/-! ## ScopeResolver: the upload-side storage path

Embeds the scope-validation and destination-path logic of
`AzureDocumentManager.upload` (document_manager/azure_document_manager.py,
lines 83-96).  The session branch of the source performs no assertion, and
the user branch asserts only the user id; identifiers that are `None` are
rendered as "None" by the f-string. -/

def uploadDestinationPath (customer : String) (account_id user_id session_id : Option String)
    (scope : String) : Except String String :=
  let destination := customer
  if scope = "account" then
    if pyTruthy account_id then .ok (destination ++ "/" ++ pyFStrOpt account_id)
    else .error "AssertionError: account ID must be provided for session-specific indexing"
  else if scope = "user" then
    if pyTruthy user_id then
      .ok (destination ++ "/" ++ pyFStrOpt account_id ++ "/" ++ pyFStrOpt user_id)
    else .error "AssertionError: user ID must be provided for user-specific indexing"
  else if scope = "session" then
    .ok (destination ++ "/" ++ pyFStrOpt account_id ++ "/" ++ pyFStrOpt user_id ++ "/" ++
      pyFStrOpt session_id)
  else if scope = "global" then
    .ok destination
  else .error "AssertionError"

/-! ## Claims C1 and C2 -/

/-- Claim C1 (code-bug evaluation).  The claim states that for a scope
narrower than global the filter is the scope condition OR'd with
`is_global eq true`.  The code computes only the bare scope condition: at
scope `account` with account id `a1` the filter is exactly
`account_id eq 'a1'`, with no global disjunct, because the branch that
would add it is the unreachable `else` of the scope chain.  The global-scope
half of the claim does hold: the filter there is exactly
`is_global eq true`. -/
theorem c1_account_scope_filter_omits_global_disjunct :
    buildFilterExpression (some "a1") none none "account" [] = .ok (some "account_id eq 'a1'")
    ∧ buildFilterExpression none none none "global" [] = .ok (some "is_global eq true")
    ∧ exOk? (buildFilterExpression (some "a1") none none "account" [])
        ≠ some (some "(account_id eq 'a1') or is_global eq true") := by
  refine ⟨rfl, rfl, ?_⟩
  decide

/-- Claim C2 counterexample.  The claim requires that user scope demand both
an account id and a user id, with any missing identifier failing validation
before external calls.  At user scope with the account id missing, upload
proceeds and silently renders the missing account id as "None" in the
storage path, and the search-side filter builder also accepts the request. -/
theorem c2_counterexample_user_scope_missing_account :
    uploadDestinationPath "acme" none (some "u1") none "user" = .ok "acme/None/u1"
    ∧ buildFilterExpression none (some "u1") none "user" [] = .ok (some "user_id eq 'u1'") :=
  ⟨rfl, rfl⟩

/-- Claim C2 (amended).  Upload validates only the identifier named by the
scope: account scope requires a truthy account id and user scope a truthy
user id, while session scope performs no validation at all; the search
filter likewise validates exactly one identifier per scope (account id,
user id, or session id).  An identifier that is not validated may be
missing, in which case upload proceeds with the string "None" interpolated
into the storage path instead of failing. -/
theorem c2_amended_scope_validation (customer : String) (a u s : Option String) :
    isOkE (uploadDestinationPath customer a u s "account") = pyTruthy a
    ∧ isOkE (uploadDestinationPath customer a u s "user") = pyTruthy u
    ∧ isOkE (uploadDestinationPath customer a u s "session") = true
    ∧ isOkE (uploadDestinationPath customer a u s "global") = true
    ∧ isOkE (buildFilterExpression a u s "account" []) = pyTruthy a
    ∧ isOkE (buildFilterExpression a u s "user" []) = pyTruthy u
    ∧ isOkE (buildFilterExpression a u s "session" []) = pyTruthy s
    ∧ (pyTruthy u = true →
        uploadDestinationPath customer a u s "user" =
          .ok (customer ++ "/" ++ pyFStrOpt a ++ "/" ++ pyFStrOpt u)) := by
  cases ha : pyTruthy a <;> cases hu : pyTruthy u <;> cases hs : pyTruthy s <;>
    refine ⟨?_, ?_, ?_, ?_, ?_, ?_, ?_, ?_⟩ <;>
    simp [uploadDestinationPath, buildFilterExpression, isOkE, ha, hu, hs]

/-- Claim C2 amended-theorem witness at concrete inputs. -/
theorem c2_amended_scope_validation_witness :
    isOkE (uploadDestinationPath "acme" (some "a1") (some "u1") (some "s1") "account")
        = pyTruthy (some "a1")
    ∧ uploadDestinationPath "acme" (some "a1") (some "u1") (some "s1") "user" =
        .ok ("acme" ++ "/" ++ pyFStrOpt (some "a1") ++ "/" ++ pyFStrOpt (some "u1")) :=
  ⟨(c2_amended_scope_validation "acme" (some "a1") (some "u1") (some "s1")).1,
   (c2_amended_scope_validation "acme" (some "a1") (some "u1") (some "s1")).2.2.2.2.2.2.2
     (by decide)⟩

/-! ## DocumentIngestionPipeline

Embeds `DocumentProcessor._convert_to_documents` and the relevant part of
`DocumentProcessor.process_document` (document_processor/processor.py).
The loader, splitter and embedder are external collaborators; their outputs
(the ordered chunk list and the ordered embedding list) are parameters.  The
embedding element type is an opaque type parameter `E`, since embedding
vectors are floats the claims never inspect.  Timestamps (`created_at`,
`updated_at`) come from the ambient clock and are omitted. -/

/-- A chunked langchain document: text content plus metadata. -/
structure LCDocument : Type where
  page_content : String
  metadata : List (String × String)

/-- The `Document` dataclass of index/data_models/models.py (one chunk unit
ready for indexing). -/
structure DocumentUnit (E : Type) : Type where
  account_id : Option String
  user_id : Option String
  document_id : String
  chunk_id : String
  chunk_position : Nat
  session_id : Option String
  content : String
  is_global : Bool
  metadata : List (String × String)
  embedding : E
  version : Nat := 1

/-- `DocumentProcessor._generate_chunk_id`. -/
def generateChunkId (document_id : String) (chunk_index : Nat) : String :=
  document_id ++ "_chunk_" ++ toString chunk_index

/-- The loop body of `_convert_to_documents`:
`for idx, (doc, embedding) in enumerate(zip(langchain_docs, embeddings))`,
written with an explicit running index. -/
def convertToDocumentsFrom {E : Type} (document_id : String) (account_id user_id : Option String)
    (is_global : Bool) (session_id : Option String) :
    Nat → List LCDocument → List E → List (DocumentUnit E)
  | _, [], _ => []
  | _, _ :: _, [] => []
  | idx, doc :: docs, e :: es =>
    { account_id := account_id
      user_id := user_id
      document_id := document_id
      chunk_id := generateChunkId document_id idx
      chunk_position := idx
      session_id := session_id
      content := doc.page_content
      is_global := is_global
      metadata := doc.metadata
      embedding := e } ::
      convertToDocumentsFrom document_id account_id user_id is_global session_id (idx + 1) docs es

/-- `DocumentProcessor._convert_to_documents`. -/
def convertToDocuments {E : Type} (langchain_docs : List LCDocument) (document_id : String)
    (account_id user_id : Option String) (is_global : Bool) (session_id : Option String)
    (embeddings : List E) : List (DocumentUnit E) :=
  convertToDocumentsFrom document_id account_id user_id is_global session_id 0
    langchain_docs embeddings

theorem convertToDocumentsFrom_length {E : Type} (document_id : String)
    (a u : Option String) (g : Bool) (s : Option String) :
    ∀ (k : Nat) (docs : List LCDocument) (es : List E), es.length = docs.length →
      (convertToDocumentsFrom document_id a u g s k docs es).length = docs.length := by
  intro k docs
  induction docs generalizing k with
  | nil => intro es _; rfl
  | cons d ds ih =>
    intro es h
    cases es with
    | nil => simp at h
    | cons e es' =>
      have h' : es'.length = ds.length := by simpa using h
      simp only [convertToDocumentsFrom, List.length_cons]
      rw [ih (k + 1) es' h']

theorem convertToDocumentsFrom_get {E : Type} (document_id : String)
    (a u : Option String) (g : Bool) (s : Option String) :
    ∀ (k : Nat) (docs : List LCDocument) (es : List E) (i : Nat)
      (h : i < (convertToDocumentsFrom document_id a u g s k docs es).length)
      (hd : i < docs.length) (he : i < es.length),
      (convertToDocumentsFrom document_id a u g s k docs es).get ⟨i, h⟩ =
        { account_id := a, user_id := u, document_id := document_id,
          chunk_id := generateChunkId document_id (k + i), chunk_position := k + i,
          session_id := s, content := (docs.get ⟨i, hd⟩).page_content,
          is_global := g, metadata := (docs.get ⟨i, hd⟩).metadata,
          embedding := es.get ⟨i, he⟩ } := by
  intro k docs
  induction docs generalizing k with
  | nil => intro es i h hd he; simp at hd
  | cons d ds ih =>
    intro es i h hd he
    cases es with
    | nil => simp at he
    | cons e es' =>
      cases i with
      | zero => simp [convertToDocumentsFrom]
      | succ j =>
        have hd' : j < ds.length := by simpa using hd
        have he' : j < es'.length := by simpa using he
        have h' : j < (convertToDocumentsFrom document_id a u g s (k + 1) ds es').length := by
          simpa [convertToDocumentsFrom] using h
        simp only [convertToDocumentsFrom, List.get_cons_succ]
        rw [ih (k + 1) es' j h' hd' he']
        have hk : k + 1 + j = k + (j + 1) := by omega
        simp [hk]

theorem convertToDocumentsFrom_map_chunk_id {E : Type} (document_id : String)
    (a u : Option String) (g : Bool) (s : Option String) :
    ∀ (k : Nat) (docs : List LCDocument) (es : List E), es.length = docs.length →
      (convertToDocumentsFrom document_id a u g s k docs es).map (fun x => x.chunk_id)
        = (List.range docs.length).map (fun i => generateChunkId document_id (k + i)) := by
  intro k docs
  induction docs generalizing k with
  | nil => intro es _; rfl
  | cons d ds ih =>
    intro es h
    cases es with
    | nil => simp at h
    | cons e es' =>
      have h' : es'.length = ds.length := by simpa using h
      simp only [convertToDocumentsFrom, List.map_cons, List.length_cons]
      rw [ih (k + 1) es' h', List.range_succ_eq_map]
      simp only [List.map_cons, List.map_map, Nat.add_zero]
      congr 1
      apply List.map_congr_left
      intro i _
      simp only [Function.comp]
      congr 1
      omega

/-! ## Records and manager state

`DocumentRecord` (document_manager/data_models/models.py) and `IndexRecord`
(index_manager/data_models/models.py).  Timestamp fields come from the
ambient clock and are omitted.  The hierarchical ids are `Option String`
because `AzureDocumentManager.upload` passes through its `Optional[str]`
parameters. -/

structure DocumentRecordL : Type where
  document_id : String
  customer_id : String
  index_name : String
  account_id : Option String
  user_id : Option String
  session_id : Option String
  scope : String
  document_url : String
  document_name : String
  document_size : Nat
  document_indexed : Bool
  chunk_ids : List String

structure IndexRecordL : Type where
  customer_id : String
  index_name : String
  account_ids : List String
  document_ids : List String
  admin_id : String

/-- One record held by the Azure AI Search index: the fields `delete_document`
and `list_document_chunks` touch (search on `document_id`, delete keyed by
`chunk_id`). -/
structure IndexEntry : Type where
  document_id : String
  chunk_id : String

/-- The external state a document manager touches: the `documents`
collection, the search-index contents, the `indexes` registry collection,
and the object-storage blobs (by URL). -/
structure ManagerState : Type where
  documents : List (String × DocumentRecordL)
  indexEntries : List IndexEntry
  registry : List (String × IndexRecordL)
  blobs : List String

/-! ## IndexLifecycleManager: registry updates

Embeds `IndexManager.update_docs_in_index_record`
(index_manager/index_manager.py, lines 133-167).  The index name is the
customer id; a missing record logs a warning and returns `False`; `add`
appends; `delete` uses Python `list.remove`, which raises when the id is
absent. -/

def updateDocsInIndexRecord (customer_id : String)
    (registry : List (String × IndexRecordL)) (document_id : String) (action : String) :
    Except String (Bool × List (String × IndexRecordL)) :=
  let index_name := customer_id
  match storeGet registry index_name with
  | some index_record =>
    if action = "add" then
      .ok (true, storeUpsert registry index_name
        { index_record with document_ids := index_record.document_ids ++ [document_id] })
    else if action = "delete" then
      match pyListRemove index_record.document_ids document_id with
      | .ok ds =>
        .ok (true, storeUpsert registry index_name { index_record with document_ids := ds })
      | .error e => .error e
    else
      .ok (false, registry)
  | none => .ok (false, registry)

/-! ## DocumentRecordStore: delete and authorization

Embeds `AzureDocumentManager.delete` and
`AzureDocumentManager.is_user_authorized`
(document_manager/azure_document_manager.py, lines 162-220).  The blob
deletion outcome is the parameter `blobDeleteOk`: `AzureBlobStorage.delete_file`
catches every exception internally, logs it and returns a boolean, so a
failed blob deletion never raises into `delete`.  Chunk resolution follows
`AISearchIndexClient.list_document_chunks` (a server-side filter on
`document_id`) and chunk removal follows `delete_document` (delete actions
keyed by `chunk_id`). -/

/-- Python `document_record.get('user_id') == user_id` where the stored
value may be `None`. -/
def optEqStr : Option String → String → Bool
  | some s, u => s == u
  | none, _ => false

def isUserAuthorized (user_id : String) (document_record : Option DocumentRecordL) : Bool :=
  match document_record with
  | some r => optEqStr r.user_id user_id
  | none => false

/-- The single failure message `delete` raises both when the record is
absent and when the requester is not the owner. -/
def uniformDeleteError (document_id : String) : String :=
  "Document with id: " ++ document_id ++
    " not found or user is not authorized to delete the document."

def deleteDocument (customer_id : String) (blobDeleteOk : Bool) (st : ManagerState)
    (document_id : String) (user_id : String) : Except String Unit × ManagerState :=
  match storeGet st.documents document_id with
  | some r =>
    if isUserAuthorized user_id (some r) then
      let blobs1 :=
        if r.document_url != "" then
          (if blobDeleteOk then st.blobs.filter (fun x => x != r.document_url) else st.blobs)
        else st.blobs
      let chunk_ids := (st.indexEntries.filter
        (fun e2 => e2.document_id == document_id)).map (fun e2 => e2.chunk_id)
      let entries1 := st.indexEntries.filter (fun e => !(chunk_ids.contains e.chunk_id))
      let documents1 := storeDelete st.documents document_id
      match updateDocsInIndexRecord customer_id st.registry document_id "delete" with
      | .ok (_, registry1) =>
        (.ok (), { documents := documents1, indexEntries := entries1,
                   registry := registry1, blobs := blobs1 })
      | .error e =>
        (.error e, { documents := documents1, indexEntries := entries1,
                     registry := st.registry, blobs := blobs1 })
    else (.error (uniformDeleteError document_id), st)
  | none => (.error (uniformDeleteError document_id), st)

/-! ## Upload

Embeds `AzureDocumentManager.upload` (lines 66-128): scope validation and
destination path, blob upload, processing into chunk units, indexing,
document-record construction, document-record upsert, and the registry
`add`.  The local file is represented by its name, stem and size; the
splitter and embedder outputs are parameters.  `DocumentRecord` is a
pydantic model whose `account_id`, `user_id` and `session_id` fields are
required `str`, while upload passes its `Optional[str]` parameters straight
through: when any of the three is `None`, `DocumentRecord(...)` raises a
ValidationError after indexing but before `_update_document_record`, so the
chunks stay indexed and no record is written. -/

def processDocument {E : Type} (fileStem : String) (account_id user_id : Option String)
    (is_global : Bool) (session_id : Option String)
    (splitter_chunks : List LCDocument) (embeddings : List E) : List (DocumentUnit E) :=
  convertToDocuments splitter_chunks fileStem account_id user_id is_global session_id embeddings

def upload {E : Type} (customer index_name : String) (fileStem fileName : String)
    (fileSize : Nat) (account_id user_id session_id : Option String) (scope : String)
    (splitter_chunks : List LCDocument) (embeddings : List E) (st : ManagerState) :
    Except String (List (DocumentUnit E)) × ManagerState :=
  match uploadDestinationPath customer account_id user_id session_id scope with
  | .error e => (.error e, st)
  | .ok destination =>
    let st1 : ManagerState := { st with blobs := st.blobs ++ [destination ++ "/" ++ fileName] }
    let chunked_documents :=
      processDocument fileStem account_id user_id (scope == "global") session_id
        splitter_chunks embeddings
    match chunked_documents with
    | [] => (.error "IndexError: list index out of range", st1)
    | first :: rest =>
      let document_id := first.document_id
      let entries1 := st1.indexEntries ++ (first :: rest).map
        (fun x => IndexEntry.mk x.document_id x.chunk_id)
      let st2 : ManagerState := { st1 with indexEntries := entries1 }
      if account_id.isNone || user_id.isNone || session_id.isNone then
        (.error "ValidationError: DocumentRecord account_id, user_id and session_id must be str",
         st2)
      else
        let record : DocumentRecordL :=
          { document_id := document_id, customer_id := customer, index_name := index_name,
            account_id := account_id, user_id := user_id, session_id := session_id,
            scope := scope,
            document_url := destination ++ "/" ++ fileName,
            document_name := fileName, document_size := fileSize,
            document_indexed := true,
            chunk_ids := (first :: rest).map (fun x => x.chunk_id) }
        let st3 : ManagerState :=
          { st2 with documents := storeUpsert st2.documents document_id record }
        match updateDocsInIndexRecord customer st3.registry document_id "add" with
        | .ok (_, registry1) => (.ok (first :: rest), { st3 with registry := registry1 })
        | .error e => (.error e, st3)

/-! ## Behaviour of delete and the registry update -/

theorem updateDocsInIndexRecord_delete_of_mem (c : String)
    (registry : List (String × IndexRecordL)) (d : String) (ir : IndexRecordL)
    (hir : storeGet registry c = some ir) (hmem : d ∈ ir.document_ids) :
    updateDocsInIndexRecord c registry d "delete" =
      .ok (true, storeUpsert registry c { ir with document_ids := ir.document_ids.erase d }) := by
  simp only [updateDocsInIndexRecord, hir]
  simp [pyListRemove_of_mem _ _ hmem]

theorem deleteDocument_authorized (c : String) (b : Bool) (st : ManagerState) (d u : String)
    (r : DocumentRecordL) (ir : IndexRecordL)
    (hr : storeGet st.documents d = some r)
    (hauth : optEqStr r.user_id u = true)
    (hir : storeGet st.registry c = some ir)
    (hmem : d ∈ ir.document_ids) :
    deleteDocument c b st d u =
      (.ok (),
       { documents := storeDelete st.documents d
         indexEntries := st.indexEntries.filter (fun e =>
           !(((st.indexEntries.filter (fun e2 => e2.document_id == d)).map
               (fun e2 => e2.chunk_id)).contains e.chunk_id))
         registry := storeUpsert st.registry c { ir with document_ids := ir.document_ids.erase d }
         blobs := if r.document_url != "" then
             (if b then st.blobs.filter (fun x => x != r.document_url) else st.blobs)
           else st.blobs }) := by
  unfold deleteDocument
  rw [hr, updateDocsInIndexRecord_delete_of_mem c st.registry d ir hir hmem]
  simp [isUserAuthorized, hauth]

theorem deleteDocument_not_found_or_unauthorized (c : String) (b : Bool)
    (st : ManagerState) (d u : String)
    (h : storeGet st.documents d = none ∨
         ∃ r, storeGet st.documents d = some r ∧ optEqStr r.user_id u = false) :
    deleteDocument c b st d u = (.error (uniformDeleteError d), st) := by
  unfold deleteDocument
  rcases h with h | ⟨r, hr, hu⟩
  · rw [h]
  · rw [hr]
    simp [isUserAuthorized, hu]

/-- After the authorized delete path filters the index, no entry with the
deleted document id remains: every such entry's own chunk id is in the
server-side-resolved chunk-id list, so its delete action removes it. -/
theorem delete_entries_no_doc (entries : List IndexEntry) (d : String) :
    ∀ e ∈ entries.filter (fun e =>
        !(((entries.filter (fun e2 => e2.document_id == d)).map
            (fun e2 => e2.chunk_id)).contains e.chunk_id)),
      e.document_id ≠ d := by
  intro e he hd
  rw [List.mem_filter] at he
  obtain ⟨h1, h2⟩ := he
  have hmem : e.chunk_id ∈ (entries.filter (fun e2 => e2.document_id == d)).map
      (fun e2 => e2.chunk_id) :=
    List.mem_map_of_mem _ (List.mem_filter.mpr ⟨h1, by simp [hd]⟩)
  generalize (entries.filter (fun e2 => e2.document_id == d)).map
      (fun e2 => e2.chunk_id) = l at hmem h2
  simp at h2
  exact h2 hmem

/-- Shared post-state description of the authorized delete path, for any
blob-deletion outcome. -/
theorem deleteDocument_authorized_post (c : String) (b : Bool) (st : ManagerState)
    (d u : String) (r : DocumentRecordL) (ir : IndexRecordL)
    (hr : storeGet st.documents d = some r)
    (hauth : optEqStr r.user_id u = true)
    (hir : storeGet st.registry c = some ir)
    (hmem : d ∈ ir.document_ids)
    (hwf : storeKeysNodup st.documents) :
    (deleteDocument c b st d u).1 = .ok ()
    ∧ storeGet (deleteDocument c b st d u).2.documents d = none
    ∧ (∀ e ∈ (deleteDocument c b st d u).2.indexEntries, e.document_id ≠ d)
    ∧ storeGet (deleteDocument c b st d u).2.registry c =
        some { ir with document_ids := ir.document_ids.erase d } := by
  rw [deleteDocument_authorized c b st d u r ir hr hauth hir hmem]
  exact ⟨rfl, storeGet_delete_self _ _ hwf, delete_entries_no_doc _ _,
    storeGet_upsert_self _ _ _⟩

/-! ## Sample data for concrete witnesses -/

def sampleRecord : DocumentRecordL :=
  { document_id := "report", customer_id := "acme", index_name := "acme",
    account_id := some "a1", user_id := some "u1", session_id := none, scope := "user",
    document_url := "acme/a1/u1/report.pdf", document_name := "report.pdf",
    document_size := 10, document_indexed := true, chunk_ids := ["report_chunk_0"] }

def sampleIndexRecord : IndexRecordL :=
  { customer_id := "acme", index_name := "acme", account_ids := ["a1"],
    document_ids := ["report"], admin_id := "admin" }

def sampleState : ManagerState :=
  { documents := [("report", sampleRecord)],
    indexEntries := [⟨"report", "report_chunk_0"⟩, ⟨"other", "other_chunk_0"⟩],
    registry := [("acme", sampleIndexRecord)],
    blobs := ["acme/a1/u1/report.pdf"] }

def emptyState : ManagerState :=
  { documents := [], indexEntries := [], registry := [], blobs := [] }

/-! ## Claims C3, C4, C5, C6, C10 -/

/-- Claim C3: after authorization succeeds, the blob deletion is best-effort.
`AzureBlobStorage.delete_file` logs every failure and returns a boolean
instead of raising, so whatever the blob-deletion outcome `b` — including
failure, `b = false` — delete still returns success, the chunk units of the
document are removed from the index, the DocumentRecord is deleted, and the
document id is removed from the registry record. -/
theorem c3_blob_failure_does_not_abort_delete (c : String) (st : ManagerState) (d u : String)
    (r : DocumentRecordL) (ir : IndexRecordL)
    (hr : storeGet st.documents d = some r)
    (hauth : optEqStr r.user_id u = true)
    (hir : storeGet st.registry c = some ir)
    (hmem : d ∈ ir.document_ids)
    (hwf : storeKeysNodup st.documents) :
    ∀ b : Bool,
      (deleteDocument c b st d u).1 = .ok ()
      ∧ storeGet (deleteDocument c b st d u).2.documents d = none
      ∧ (∀ e ∈ (deleteDocument c b st d u).2.indexEntries, e.document_id ≠ d)
      ∧ storeGet (deleteDocument c b st d u).2.registry c =
          some { ir with document_ids := ir.document_ids.erase d } := by
  intro b
  exact deleteDocument_authorized_post c b st d u r ir hr hauth hir hmem hwf

/-- Claim C3 witness: authorized delete on a concrete state with the blob
deletion failing (`b = false`). -/
theorem c3_blob_failure_does_not_abort_delete_witness :
    (deleteDocument "acme" false sampleState "report" "u1").1 = .ok ()
    ∧ storeGet (deleteDocument "acme" false sampleState "report" "u1").2.documents "report" = none
    ∧ (∀ e ∈ (deleteDocument "acme" false sampleState "report" "u1").2.indexEntries,
        e.document_id ≠ "report")
    ∧ storeGet (deleteDocument "acme" false sampleState "report" "u1").2.registry "acme" =
        some { sampleIndexRecord with
          document_ids := sampleIndexRecord.document_ids.erase "report" } :=
  c3_blob_failure_does_not_abort_delete "acme" sampleState "report" "u1"
    sampleRecord sampleIndexRecord rfl (by decide) rfl (by decide)
    (by simp [storeKeysNodup, sampleState]) false

/-- Claim C4: when the registry record for the tenant's index is absent,
`update_docs_in_index_record` returns a failed boolean result (`False`)
without raising and leaves the registry unchanged; when the record is
present, action `add` appends the document id and action `delete` removes
it, both returning `True`. -/
theorem c4_update_docs_in_index_record_spec (c : String)
    (registry : List (String × IndexRecordL)) (d : String) :
    (storeGet registry c = none →
      ∀ action, updateDocsInIndexRecord c registry d action = .ok (false, registry))
    ∧ (∀ ir, storeGet registry c = some ir →
        updateDocsInIndexRecord c registry d "add" =
          .ok (true, storeUpsert registry c
            { ir with document_ids := ir.document_ids ++ [d] }))
    ∧ (∀ ir, storeGet registry c = some ir → d ∈ ir.document_ids →
        updateDocsInIndexRecord c registry d "delete" =
          .ok (true, storeUpsert registry c
            { ir with document_ids := ir.document_ids.erase d })) := by
  refine ⟨?_, ?_, ?_⟩
  · intro h action
    simp only [updateDocsInIndexRecord, h]
  · intro ir hir
    simp only [updateDocsInIndexRecord, hir]
    simp
  · intro ir hir hmem
    exact updateDocsInIndexRecord_delete_of_mem c registry d ir hir hmem

/-- Claim C4 witness at a concrete registry. -/
theorem c4_update_docs_in_index_record_spec_witness :
    updateDocsInIndexRecord "acme" [] "report" "add" = .ok (false, [])
    ∧ updateDocsInIndexRecord "acme" [("acme", sampleIndexRecord)] "report" "add" =
        .ok (true, storeUpsert [("acme", sampleIndexRecord)] "acme"
          { sampleIndexRecord with
            document_ids := sampleIndexRecord.document_ids ++ ["report"] })
    ∧ updateDocsInIndexRecord "acme" [("acme", sampleIndexRecord)] "report" "delete" =
        .ok (true, storeUpsert [("acme", sampleIndexRecord)] "acme"
          { sampleIndexRecord with
            document_ids := sampleIndexRecord.document_ids.erase "report" }) :=
  ⟨(c4_update_docs_in_index_record_spec "acme" [] "report").1 rfl "add",
   (c4_update_docs_in_index_record_spec "acme" [("acme", sampleIndexRecord)] "report").2.1
     sampleIndexRecord rfl,
   (c4_update_docs_in_index_record_spec "acme" [("acme", sampleIndexRecord)] "report").2.2
     sampleIndexRecord rfl (by decide)⟩

/-- Claim C5: deleting an existing document whose stored user id equals the
requester removes the DocumentRecord, removes every chunk unit carrying
that document id from the index (the chunk set is resolved by filtering the
index contents on `document_id`, not from a client-held list), and removes
the document id from the owning IndexRecord; deleting the same id again
fails with the uniform not-found error and leaves the state unchanged
rather than crashing. -/
theorem c5_delete_then_redelete (c : String) (st : ManagerState) (d u : String)
    (r : DocumentRecordL) (ir : IndexRecordL)
    (hr : storeGet st.documents d = some r)
    (hauth : optEqStr r.user_id u = true)
    (hir : storeGet st.registry c = some ir)
    (hcount : ir.document_ids.count d = 1)
    (hwf : storeKeysNodup st.documents) :
    ∀ b b' : Bool,
      (deleteDocument c b st d u).1 = .ok ()
      ∧ storeGet (deleteDocument c b st d u).2.documents d = none
      ∧ (∀ e ∈ (deleteDocument c b st d u).2.indexEntries, e.document_id ≠ d)
      ∧ (∃ ir', storeGet (deleteDocument c b st d u).2.registry c = some ir'
          ∧ d ∉ ir'.document_ids)
      ∧ deleteDocument c b' (deleteDocument c b st d u).2 d u =
          (.error (uniformDeleteError d), (deleteDocument c b st d u).2) := by
  intro b b'
  have hmem : d ∈ ir.document_ids := by
    have : 0 < ir.document_ids.count d := by omega
    exact List.count_pos_iff.mp this
  have h1 := deleteDocument_authorized_post c b st d u r ir hr hauth hir hmem hwf
  obtain ⟨hok, hdoc, hent, hreg⟩ := h1
  refine ⟨hok, hdoc, hent, ⟨{ ir with document_ids := ir.document_ids.erase d }, hreg, ?_⟩, ?_⟩
  · intro hmem'
    have hmem'' : d ∈ ir.document_ids.erase d := hmem'
    have hce : (ir.document_ids.erase d).count d = ir.document_ids.count d - 1 :=
      List.count_erase_self d ir.document_ids
    have hpos : 0 < (ir.document_ids.erase d).count d := List.count_pos_iff.mpr hmem''
    omega
  · exact deleteDocument_not_found_or_unauthorized c b' _ d u (Or.inl hdoc)

/-- Claim C5 witness on a concrete two-document index. -/
theorem c5_delete_then_redelete_witness :
    (deleteDocument "acme" true sampleState "report" "u1").1 = .ok ()
    ∧ storeGet (deleteDocument "acme" true sampleState "report" "u1").2.documents "report" = none
    ∧ deleteDocument "acme" true (deleteDocument "acme" true sampleState "report" "u1").2
        "report" "u1" =
        (.error (uniformDeleteError "report"),
         (deleteDocument "acme" true sampleState "report" "u1").2) := by
  have h := c5_delete_then_redelete "acme" sampleState "report" "u1"
    sampleRecord sampleIndexRecord rfl (by decide) rfl (by decide)
    (by simp [storeKeysNodup, sampleState]) true true
  exact ⟨h.1, h.2.1, h.2.2.2.2⟩

/-- Claim C6: a delete request for an absent document id and a delete
request for an existing document owned by a different user produce exactly
the same outcome — the uniform not-found/not-authorized failure message —
and in both cases the state is returned unmodified, so the failure leaks
nothing about the document's existence. -/
theorem c6_uniform_failure_no_state_change (c : String) (b : Bool) (st : ManagerState)
    (d u : String)
    (h : storeGet st.documents d = none ∨
         ∃ r, storeGet st.documents d = some r ∧ optEqStr r.user_id u = false) :
    deleteDocument c b st d u = (.error (uniformDeleteError d), st) :=
  deleteDocument_not_found_or_unauthorized c b st d u h

/-- Claim C6 witness: the absent-document case and the wrong-user case on
concrete states produce the identical failure and untouched states. -/
theorem c6_uniform_failure_no_state_change_witness :
    deleteDocument "acme" true emptyState "report" "u2" =
      (.error (uniformDeleteError "report"), emptyState)
    ∧ deleteDocument "acme" true sampleState "report" "u2" =
      (.error (uniformDeleteError "report"), sampleState) :=
  ⟨c6_uniform_failure_no_state_change "acme" true emptyState "report" "u2" (Or.inl rfl),
   c6_uniform_failure_no_state_change "acme" true sampleState "report" "u2"
     (Or.inr ⟨sampleRecord, rfl, by decide⟩)⟩

/-- Claim C10: when the registry IndexRecord exists but its `document_ids`
list does not contain the given document id,
`update_docs_in_index_record(document_id, 'delete')` raises the `ValueError`
of the unguarded `list.remove` instead of returning a boolean result; since
the call raises before `update_or_create_record`, the stored record is not
updated. -/
theorem c10_update_docs_delete_raises_when_id_absent (c : String)
    (registry : List (String × IndexRecordL)) (d : String) (ir : IndexRecordL)
    (hir : storeGet registry c = some ir) (hnot : d ∉ ir.document_ids) :
    updateDocsInIndexRecord c registry d "delete" =
      .error "ValueError: list.remove(x): x not in list" := by
  simp only [updateDocsInIndexRecord, hir]
  simp [pyListRemove_of_not_mem _ _ hnot]

/-- Claim C10 witness: deleting an id missing from a concrete registry
record raises. -/
theorem c10_update_docs_delete_raises_when_id_absent_witness :
    updateDocsInIndexRecord "acme" [("acme", sampleIndexRecord)] "ghost" "delete" =
      .error "ValueError: list.remove(x): x not in list" :=
  c10_update_docs_delete_raises_when_id_absent "acme" [("acme", sampleIndexRecord)]
    "ghost" sampleIndexRecord rfl (by decide)

/-! ## Behaviour of upload -/

theorem convertToDocumentsFrom_document_id {E : Type} (document_id : String)
    (a u : Option String) (g : Bool) (s : Option String) :
    ∀ (k : Nat) (docs : List LCDocument) (es : List E) x,
      x ∈ convertToDocumentsFrom document_id a u g s k docs es →
      x.document_id = document_id := by
  intro k docs
  induction docs generalizing k with
  | nil => intro es x hx; simp [convertToDocumentsFrom] at hx
  | cons dd ds ih =>
    intro es x hx
    cases es with
    | nil => simp [convertToDocumentsFrom] at hx
    | cons e es' =>
      simp only [convertToDocumentsFrom] at hx
      rcases List.mem_cons.mp hx with h | h
      · subst h; rfl
      · exact ih (k + 1) es' x h

/-- The registry `add` performed at the end of upload always returns a
boolean result (the append path cannot raise). -/
theorem updateDocsInIndexRecord_add_ok (c : String)
    (registry : List (String × IndexRecordL)) (d : String) :
    ∃ bb reg, updateDocsInIndexRecord c registry d "add" = .ok (bb, reg) := by
  cases h : storeGet registry c with
  | none => exact ⟨false, registry, by simp only [updateDocsInIndexRecord, h]⟩
  | some ir =>
    refine ⟨true, storeUpsert registry c
      { ir with document_ids := ir.document_ids ++ [d] }, ?_⟩
    simp only [updateDocsInIndexRecord, h]
    simp

/-- The successful upload path: destination resolved, at least one chunk,
and all three hierarchical identifiers supplied (so the pydantic
DocumentRecord validation passes). -/
theorem upload_result {E : Type} (customer index_name fileStem fileName : String)
    (fileSize : Nat) (aid uid sid : String) (scope : String)
    (cs : List LCDocument) (es : List E) (st : ManagerState) (p : String)
    (hp : uploadDestinationPath customer (some aid) (some uid) (some sid) scope = .ok p)
    (first : DocumentUnit E) (rest : List (DocumentUnit E))
    (hcd : processDocument fileStem (some aid) (some uid) (scope == "global") (some sid)
      cs es = first :: rest) :
    (upload customer index_name fileStem fileName fileSize (some aid) (some uid) (some sid)
        scope cs es st).1 = .ok (first :: rest)
    ∧ storeGet
        (upload customer index_name fileStem fileName fileSize (some aid) (some uid) (some sid)
          scope cs es st).2.documents
        first.document_id =
        some { document_id := first.document_id, customer_id := customer,
               index_name := index_name, account_id := some aid, user_id := some uid,
               session_id := some sid,
               scope := scope, document_url := p ++ "/" ++ fileName,
               document_name := fileName, document_size := fileSize,
               document_indexed := true,
               chunk_ids := (first :: rest).map (fun x => x.chunk_id) } := by
  obtain ⟨bb, reg, hadd⟩ := updateDocsInIndexRecord_add_ok customer st.registry first.document_id
  simp only [upload, hp, hcd, hadd, Option.isNone_some, Bool.or_self, Bool.or_false,
    Bool.false_or, Bool.cond_false, if_false]
  exact ⟨by trivial, storeGet_upsert_self _ _ _⟩

/-- Claim C7 (amended): for every document whose splitter emits N chunks with
N at least 1, uploaded with the account, user and session ids all supplied,
processing yields exactly N DocumentUnits whose chunk ids are
`{document_id}_chunk_0` .. `{document_id}_chunk_{N-1}` with `chunk_position`
the zero-based position in splitter emission order, and the DocumentRecord
written at upload carries exactly those N chunk ids in that order.  (For
N = 0 no record is written — upload fails with an index error — and when
any of the three identifiers is missing the pydantic DocumentRecord
validation raises and no record is written either; see the
counterexample.) -/
theorem c7_upload_units_and_record_chunk_ids {E : Type} (customer index_name : String)
    (fileStem fileName : String) (fileSize : Nat) (aid uid sid : String) (scope : String)
    (cs : List LCDocument) (es : List E) (st : ManagerState)
    (hlen : es.length = cs.length) (hne : cs ≠ [])
    (hpath : ∃ p, uploadDestinationPath customer (some aid) (some uid) (some sid) scope
      = .ok p) :
    ∃ units : List (DocumentUnit E),
      (upload customer index_name fileStem fileName fileSize (some aid) (some uid) (some sid)
          scope cs es st).1 = .ok units
      ∧ units.length = cs.length
      ∧ (∀ (i : Nat) (hi : i < units.length) (hd : i < cs.length),
          (units.get ⟨i, hi⟩).chunk_id = generateChunkId fileStem i
          ∧ (units.get ⟨i, hi⟩).chunk_position = i
          ∧ (units.get ⟨i, hi⟩).content = (cs.get ⟨i, hd⟩).page_content)
      ∧ units.map (fun x => x.chunk_id) =
          (List.range cs.length).map (generateChunkId fileStem)
      ∧ ∃ rec, storeGet
            (upload customer index_name fileStem fileName fileSize (some aid) (some uid)
              (some sid) scope cs es st).2.documents fileStem = some rec
          ∧ rec.chunk_ids = (List.range cs.length).map (generateChunkId fileStem) := by
  obtain ⟨p, hp⟩ := hpath
  have hcd0 : processDocument fileStem (some aid) (some uid) (scope == "global") (some sid)
      cs es =
      convertToDocumentsFrom fileStem (some aid) (some uid) (scope == "global") (some sid)
        0 cs es := rfl
  have hlen2 : (convertToDocumentsFrom fileStem (some aid) (some uid) (scope == "global")
      (some sid) 0 cs es).length = cs.length :=
    convertToDocumentsFrom_length fileStem (some aid) (some uid) (scope == "global")
      (some sid) 0 cs es hlen
  have hpos : 0 < cs.length := List.length_pos.mpr hne
  obtain ⟨first, rest, hfr⟩ :
      ∃ x xs, convertToDocumentsFrom fileStem (some aid) (some uid) (scope == "global")
        (some sid) 0 cs es = x :: xs := by
    cases hc : convertToDocumentsFrom fileStem (some aid) (some uid) (scope == "global")
        (some sid) 0 cs es with
    | nil => rw [hc] at hlen2; simp at hlen2; omega
    | cons x xs => exact ⟨x, xs, rfl⟩
  have hid : first.document_id = fileStem :=
    convertToDocumentsFrom_document_id fileStem (some aid) (some uid) (scope == "global")
      (some sid) 0 cs es first (hfr ▸ List.mem_cons_self first rest)
  have hmap : (first :: rest).map (fun x => x.chunk_id) =
      (List.range cs.length).map (generateChunkId fileStem) := by
    rw [← hfr,
      convertToDocumentsFrom_map_chunk_id fileStem (some aid) (some uid) (scope == "global")
        (some sid) 0 cs es hlen]
    apply List.map_congr_left
    intro i _
    rw [Nat.zero_add]
  obtain ⟨hres, hrec⟩ := upload_result customer index_name fileStem fileName fileSize
    aid uid sid scope cs es st p hp first rest (hcd0.trans hfr)
  refine ⟨first :: rest, hres, ?_, ?_, hmap, ?_⟩
  · rw [← hfr, hlen2]
  · intro i hi hd
    have hi' : i < (convertToDocumentsFrom fileStem (some aid) (some uid) (scope == "global")
        (some sid) 0 cs es).length := by
      rw [hfr]; exact hi
    have he : i < es.length := by omega
    have hg : (first :: rest).get ⟨i, hi⟩ =
        (convertToDocumentsFrom fileStem (some aid) (some uid) (scope == "global")
          (some sid) 0 cs es).get ⟨i, hi'⟩ := by
      congr 1
      · exact hfr.symm
      · exact (Fin.heq_ext_iff (congrArg List.length hfr.symm)).mpr rfl
    rw [hg, convertToDocumentsFrom_get fileStem (some aid) (some uid) (scope == "global")
      (some sid) 0 cs es i hi' hd he]
    exact ⟨by rw [Nat.zero_add], by rw [Nat.zero_add], rfl⟩
  · rw [hid] at hrec
    exact ⟨_, hrec, hmap⟩

/-- Claim C7 counterexample, two failing inputs of the claim as stated.
A document whose splitter emits zero chunks makes upload fail with an index
error before any DocumentRecord is written (processing still yields zero
units).  And a one-chunk document uploaded at global scope with the
identifiers absent makes the pydantic DocumentRecord validation raise
(`account_id`, `user_id`, `session_id` are required `str` fields), again
with no DocumentRecord written, even though processing yielded its one
unit. -/
theorem c7_counterexample_empty_split :
    (upload (E := Unit) "acme" "acme" "report" "report.pdf" 10 none none none "global"
      [] [] emptyState).1 = .error "IndexError: list index out of range"
    ∧ storeGet (upload (E := Unit) "acme" "acme" "report" "report.pdf" 10 none none none
        "global" [] [] emptyState).2.documents "report" = none
    ∧ (upload (E := Unit) "acme" "acme" "report" "report.pdf" 10 none none none "global"
        [LCDocument.mk "hello" []] [()] emptyState).1 =
        .error "ValidationError: DocumentRecord account_id, user_id and session_id must be str"
    ∧ storeGet (upload (E := Unit) "acme" "acme" "report" "report.pdf" 10 none none none
        "global" [LCDocument.mk "hello" []] [()] emptyState).2.documents "report" = none :=
  ⟨rfl, rfl, rfl, rfl⟩

/-- Claim C7 witness: a one-chunk upload with all identifiers supplied on a
concrete state. -/
theorem c7_upload_units_and_record_chunk_ids_witness :
    ∃ units : List (DocumentUnit Unit),
      (upload "acme" "acme" "report" "report.pdf" 10 (some "a1") (some "u1") (some "s1")
        "global" [LCDocument.mk "hello" []] [()] emptyState).1 = .ok units
      ∧ units.length = ([LCDocument.mk "hello" []] : List LCDocument).length
      ∧ (∀ (i : Nat) (hi : i < units.length)
          (hd : i < ([LCDocument.mk "hello" []] : List LCDocument).length),
          (units.get ⟨i, hi⟩).chunk_id = generateChunkId "report" i
          ∧ (units.get ⟨i, hi⟩).chunk_position = i
          ∧ (units.get ⟨i, hi⟩).content =
              (([LCDocument.mk "hello" []] : List LCDocument).get ⟨i, hd⟩).page_content)
      ∧ units.map (fun x => x.chunk_id) =
          (List.range ([LCDocument.mk "hello" []] : List LCDocument).length).map
            (generateChunkId "report")
      ∧ ∃ rec, storeGet
            (upload "acme" "acme" "report" "report.pdf" 10 (some "a1") (some "u1") (some "s1")
              "global" [LCDocument.mk "hello" []] [()] emptyState).2.documents "report" =
            some rec
          ∧ rec.chunk_ids =
              (List.range ([LCDocument.mk "hello" []] : List LCDocument).length).map
                (generateChunkId "report") :=
  c7_upload_units_and_record_chunk_ids "acme" "acme" "report" "report.pdf" 10
    "a1" "u1" "s1" "global" [LCDocument.mk "hello" []] [()] emptyState rfl
    (by simp) ⟨"acme", rfl⟩

/-! ## IndexLifecycleManager: index creation

Embeds `IndexManager.create_new_index`, `_get_index_config`,
`_create_unique_index_name` and `_need_to_create_new_index`
(index_manager/index_manager.py, lines 76-125) together with
`AISearchIndexClient.define_azure_fields` and `create_index`
(index/adaptors/azure_ai_indexing_engine.py).  The tenant's stored
IndexConfig (fetched through `CustomerIndexSchemaManager.get_index_config`)
is the parameter `configLookup`; the set of indexes existing on the search
service is part of the state. -/

inductive IndexingStrategy : Type
  | DEFAULT
  | KEYED
deriving DecidableEq

structure IndexingStrategyConfig : Type where
  strategy : IndexingStrategy
  index_key : Option String

structure IndexFieldL : Type where
  name : String
  field_type : String
  filterable : Bool
  searchable : Bool
  sortable : Bool
  primary_key : Bool

structure IndexSchemaL : Type where
  fields : List IndexFieldL
  vector_dimensions : Option Nat

structure IndexConfigL : Type where
  index_schema : IndexSchemaL
  indexing_strategy_config : IndexingStrategyConfig
  description : Option String

/-- An Azure Search field definition as assembled by `define_azure_fields`. -/
structure AzureField : Type where
  name : String
  type : String
  filterable : Bool
  searchable : Bool
  sortable : Bool
  key : Bool
  vector_search_dimensions : Option Nat

/-- The source compares `self.client_index_config.indexing_strategy_config ==
IndexingStrategy.DEFAULT`, i.e. a config object against an enum member;
Python evaluates such a cross-type comparison to False. -/
def configEqStrategy (_cfg : IndexingStrategyConfig) (_s : IndexingStrategy) : Bool := false

/-- `IndexManager._create_unique_index_name`: both branches yield the
customer id. -/
def createUniqueIndexName (customer_id : String) (cfg : IndexingStrategyConfig) : String :=
  if configEqStrategy cfg IndexingStrategy.DEFAULT then customer_id
  else customer_id

/-- The `field_type_mapping` dict of `define_azure_fields`. -/
def fieldTypeMapping (t : String) : Option String :=
  if t = "string" then some "Edm.String"
  else if t = "date" then some "Edm.DateTimeOffset"
  else if t = "integer" then some "Edm.Int32"
  else if t = "float" then some "Edm.Double"
  else if t = "boolean" then some "Edm.Boolean"
  else none

/-- `AISearchIndexClient.define_azure_fields`: maps each declared field
through the type mapping (a missing type is a Python `KeyError`) and
appends the vector field when the schema declares vector dimensions. -/
def defineAzureFields (index_schema : IndexSchemaL) : Except String (List AzureField) := do
  let base ← index_schema.fields.mapM (fun f =>
    match fieldTypeMapping f.field_type with
    | some t =>
      Except.ok (AzureField.mk f.name t f.filterable f.searchable f.sortable f.primary_key none)
    | none => Except.error "KeyError")
  match index_schema.vector_dimensions with
  | some dim =>
    pure (base ++ [AzureField.mk "embedding" "Collection(Edm.Single)"
      false false false false (some dim)])
  | none => pure base

/-- State touched by index creation: the indexes existing on the search
service (with their field schemas) and the `indexes` registry collection. -/
structure IndexState : Type where
  existingIndexes : List (String × List AzureField)
  registry : List (String × IndexRecordL)

def createNewIndex (customer_id account_id user_id : String)
    (configLookup : Option IndexConfigL) (st : IndexState) :
    Except String Unit × IndexState :=
  match configLookup with
  | none =>
    (.error ("Failed to retrieve index configuration for client " ++ customer_id), st)
  | some cfg =>
    let index_name := createUniqueIndexName customer_id cfg.indexing_strategy_config
    if (storeGet st.existingIndexes index_name).isSome then (.ok (), st)
    else
      match defineAzureFields cfg.index_schema with
      | .error e => (.error ("Failed to create index " ++ index_name ++ ": " ++ e), st)
      | .ok flds =>
        let record : IndexRecordL :=
          { customer_id := customer_id, index_name := index_name,
            account_ids := [account_id], document_ids := [], admin_id := user_id }
        (.ok (), { existingIndexes := storeUpsert st.existingIndexes index_name flds,
                   registry := storeUpsert st.registry index_name record })

/-! ## CustomerRegistry

Embeds `CustomerIndexSchemaManager.customer_exists` and
`register_customer` (customer_manager/remote_customer_schema_manager.py,
lines 41-66). -/

structure CustomerL : Type where
  customer_id : String
  index_config : IndexConfigL

def customerExists (store : List (String × CustomerL)) (customer_id : String) : Bool :=
  match storeGet store customer_id with
  | some record => record.customer_id == customer_id
  | none => false

def registerCustomer (store : List (String × CustomerL)) (customer_id : String)
    (index_config : IndexConfigL) : Bool × List (String × CustomerL) :=
  if customerExists store customer_id then (false, store)
  else (true, storeUpsert store customer_id
    { customer_id := customer_id, index_config := index_config })

/-! ## Claims C8 and C9 -/

/-- Claim C8: `create_new_index` fails with a configuration-not-found error
when the tenant has no stored IndexConfig; otherwise the index name is
exactly the tenant id whatever the indexing strategy, existence is checked
against the index service, and only when the index is absent is it created
from the IndexConfig field mappings with an IndexRecord inserted whose
`document_ids` is empty; when the index already exists nothing is created
or inserted. -/
theorem c8_create_new_index_spec (cid aid uid : String) (st : IndexState) :
    (createNewIndex cid aid uid none st =
      (.error ("Failed to retrieve index configuration for client " ++ cid), st))
    ∧ (∀ cfg : IndexingStrategyConfig, createUniqueIndexName cid cfg = cid)
    ∧ (∀ cfg : IndexConfigL, (storeGet st.existingIndexes cid).isSome = true →
        createNewIndex cid aid uid (some cfg) st = (.ok (), st))
    ∧ (∀ cfg : IndexConfigL, (storeGet st.existingIndexes cid).isSome = false →
        ∀ flds, defineAzureFields cfg.index_schema = .ok flds →
          createNewIndex cid aid uid (some cfg) st =
            (.ok (), { existingIndexes := storeUpsert st.existingIndexes cid flds,
                       registry := storeUpsert st.registry cid
                         { customer_id := cid, index_name := cid,
                           account_ids := [aid], document_ids := [], admin_id := uid } })) := by
  refine ⟨rfl, fun cfg => rfl, ?_, ?_⟩
  · intro cfg hex
    simp [createNewIndex, createUniqueIndexName, configEqStrategy, hex]
  · intro cfg hex flds hflds
    simp [createNewIndex, createUniqueIndexName, configEqStrategy, hex, hflds]

def sampleIndexConfig : IndexConfigL :=
  { index_schema :=
      { fields := [{ name := "chunk_id", field_type := "string", filterable := true,
                     searchable := false, sortable := false, primary_key := true }],
        vector_dimensions := some 1536 },
    indexing_strategy_config := { strategy := IndexingStrategy.DEFAULT, index_key := none },
    description := none }

def sampleAzureFields : List AzureField :=
  [{ name := "chunk_id", type := "Edm.String", filterable := true, searchable := false,
     sortable := false, key := true, vector_search_dimensions := none },
   { name := "embedding", type := "Collection(Edm.Single)", filterable := false,
     searchable := false, sortable := false, key := false,
     vector_search_dimensions := some 1536 }]

/-- Claim C8 witness: missing config, fresh creation, and an
already-existing index, at concrete inputs. -/
theorem c8_create_new_index_spec_witness :
    (createNewIndex "acme" "a1" "admin" none ⟨[], []⟩ =
      (.error ("Failed to retrieve index configuration for client " ++ "acme"), ⟨[], []⟩))
    ∧ createNewIndex "acme" "a1" "admin" (some sampleIndexConfig)
        ⟨[("acme", sampleAzureFields)], []⟩ =
        (.ok (), ⟨[("acme", sampleAzureFields)], []⟩)
    ∧ createNewIndex "acme" "a1" "admin" (some sampleIndexConfig) ⟨[], []⟩ =
        (.ok (), { existingIndexes := storeUpsert [] "acme" sampleAzureFields,
                   registry := storeUpsert [] "acme"
                     { customer_id := "acme", index_name := "acme",
                       account_ids := ["a1"], document_ids := [], admin_id := "admin" } }) :=
  ⟨(c8_create_new_index_spec "acme" "a1" "admin" ⟨[], []⟩).1,
   (c8_create_new_index_spec "acme" "a1" "admin"
       ⟨[("acme", sampleAzureFields)], []⟩).2.2.1 sampleIndexConfig rfl,
   (c8_create_new_index_spec "acme" "a1" "admin" ⟨[], []⟩).2.2.2 sampleIndexConfig rfl
     sampleAzureFields (by rfl)⟩

/-- Claim C9: registering a tenant id that is already registered returns a
failed result and leaves the customer store — in particular the stored
record and its index config — unchanged. -/
theorem c9_register_existing_customer_fails_without_mutation
    (store : List (String × CustomerL)) (cid : String) (c : CustomerL)
    (newConfig : IndexConfigL)
    (hc : storeGet store cid = some c) (hid : c.customer_id = cid) :
    registerCustomer store cid newConfig = (false, store)
    ∧ storeGet (registerCustomer store cid newConfig).2 cid = some c := by
  have hex : customerExists store cid = true := by
    simp [customerExists, hc, hid]
  refine ⟨by simp [registerCustomer, hex], by simp [registerCustomer, hex, hc]⟩

/-- Claim C9 witness: re-registering a concrete customer with a different
config fails and preserves the stored record. -/
theorem c9_register_existing_customer_fails_without_mutation_witness :
    registerCustomer [("acme", CustomerL.mk "acme" sampleIndexConfig)] "acme"
      { sampleIndexConfig with description := some "other" } =
      (false, [("acme", CustomerL.mk "acme" sampleIndexConfig)])
    ∧ storeGet (registerCustomer [("acme", CustomerL.mk "acme" sampleIndexConfig)] "acme"
        { sampleIndexConfig with description := some "other" }).2 "acme" =
        some (CustomerL.mk "acme" sampleIndexConfig) :=
  c9_register_existing_customer_fails_without_mutation
    [("acme", CustomerL.mk "acme" sampleIndexConfig)] "acme"
    (CustomerL.mk "acme" sampleIndexConfig)
    { sampleIndexConfig with description := some "other" } rfl rfl

end RagDocManager
